import Mathlib

/-!
Verification of the xray-lite Reality/VLESS proxy core.

Bytes are modelled as `Nat` values below 256; byte buffers as `List Nat`.
Every definition is a direct translation of the corresponding Rust source
in the repository (file and function named in its doc comment), except for
the definitions explicitly marked as modelled from the specification text,
which exist to be compared with the code-derived ones.
-/

set_option maxRecDepth 100000

deriving instance DecidableEq for Except

namespace XrayLite

/-! ## Generic byte-list helpers -/

/-- Concatenation of a list of byte chunks (stream of writes flattened). -/
def listJoin : List (List Nat) → List Nat
  | [] => []
  | x :: xs => x ++ listJoin xs

@[simp] theorem listJoin_nil : listJoin [] = [] := rfl

@[simp] theorem listJoin_cons (x : List Nat) (xs : List (List Nat)) :
    listJoin (x :: xs) = x ++ listJoin xs := rfl

/-- Whether a continuation byte is valid (0x80..0xBF). -/
def utf8Cont (b : Nat) : Bool := 0x80 ≤ b ∧ b ≤ 0xBF

/-- Validity of a byte list as UTF-8, exactly as Rust's
`String::from_utf8` checks it (RFC 3629: no overlongs, no surrogates,
code points at most U+10FFFF). -/
def utf8Valid : List Nat → Bool
  | [] => true
  | b :: rest =>
    if b < 0x80 then utf8Valid rest
    else if 0xC2 ≤ b ∧ b ≤ 0xDF then
      match rest with
      | c1 :: r => if utf8Cont c1 then utf8Valid r else false
      | [] => false
    else if b = 0xE0 then
      match rest with
      | c1 :: c2 :: r =>
        if (0xA0 ≤ c1 ∧ c1 ≤ 0xBF) ∧ utf8Cont c2 then utf8Valid r else false
      | _ => false
    else if (0xE1 ≤ b ∧ b ≤ 0xEC) ∨ b = 0xEE ∨ b = 0xEF then
      match rest with
      | c1 :: c2 :: r => if utf8Cont c1 ∧ utf8Cont c2 then utf8Valid r else false
      | _ => false
    else if b = 0xED then
      match rest with
      | c1 :: c2 :: r =>
        if (0x80 ≤ c1 ∧ c1 ≤ 0x9F) ∧ utf8Cont c2 then utf8Valid r else false
      | _ => false
    else if b = 0xF0 then
      match rest with
      | c1 :: c2 :: c3 :: r =>
        if (0x90 ≤ c1 ∧ c1 ≤ 0xBF) ∧ utf8Cont c2 ∧ utf8Cont c3 then utf8Valid r else false
      | _ => false
    else if 0xF1 ≤ b ∧ b ≤ 0xF3 then
      match rest with
      | c1 :: c2 :: c3 :: r =>
        if utf8Cont c1 ∧ utf8Cont c2 ∧ utf8Cont c3 then utf8Valid r else false
      | _ => false
    else if b = 0xF4 then
      match rest with
      | c1 :: c2 :: c3 :: r =>
        if (0x80 ≤ c1 ∧ c1 ≤ 0x8F) ∧ utf8Cont c2 ∧ utf8Cont c3 then utf8Valid r else false
      | _ => false
    else false

/-! ## SHA-256 (RFC 6234), executable over byte lists

`src/transport/reality/auth.rs` uses `sha2::Sha256`; this is a bit-exact
executable model operating on `Nat` words reduced mod 2^32. -/

/-- 32-bit right rotation on a word `x < 2^32`. -/
def rotr32 (n x : Nat) : Nat :=
  ((x >>> n) ||| (x <<< (32 - n))) &&& 0xFFFFFFFF

/-- SHA-256 round constants (decimal values of the FIPS 180-4 table). -/
def sha256K : List Nat :=
  [1116352408, 1899447441, 3049323471, 3921009573, 961987163, 1508970993,
   2453635748, 2870763221, 3624381080, 310598401, 607225278, 1426881987,
   1925078388, 2162078206, 2614888103, 3248222580, 3835390401, 4022224774,
   264347078, 604807628, 770255983, 1249150122, 1555081692, 1996064986,
   2554220882, 2821834349, 2952996808, 3210313671, 3336571891, 3584528711,
   113926993, 338241895, 666307205, 773529912, 1294757372, 1396182291,
   1695183700, 1986661051, 2177026350, 2456956037, 2730485921, 2820302411,
   3259730800, 3345764771, 3516065817, 3600352804, 4094571909, 275423344,
   430227734, 506948616, 659060556, 883997877, 958139571, 1322822218,
   1537002063, 1747873779, 1955562222, 2024104815, 2227730452, 2361852424,
   2428436474, 2756734187, 3204031479, 3329325298]

/-- SHA-256 initial hash state (decimal values of the FIPS 180-4 table). -/
def sha256H0 : List Nat :=
  [1779033703, 3144134277, 1013904242, 2773480762,
   1359893119, 2600822924, 528734635, 1541459225]

/-- Group a byte list into big-endian 32-bit words (four bytes per word). -/
def bytesToWords : List Nat → List Nat
  | a :: b :: c :: d :: rest => (((a * 256 + b) * 256 + c) * 256 + d) :: bytesToWords rest
  | _ => []

/-- One word serialized to four big-endian bytes. -/
def wordToBytes (w : Nat) : List Nat :=
  [w >>> 24 &&& 0xFF, w >>> 16 &&& 0xFF, w >>> 8 &&& 0xFF, w &&& 0xFF]

/-- Extend a 16-word message schedule by `n` further words. -/
def sha256Extend : Nat → List Nat → List Nat
  | 0, ws => ws
  | n + 1, ws =>
    let i := ws.length
    let w15 := ws.getD (i - 15) 0
    let w2 := ws.getD (i - 2) 0
    let s0 := rotr32 7 w15 ^^^ rotr32 18 w15 ^^^ (w15 >>> 3)
    let s1 := rotr32 17 w2 ^^^ rotr32 19 w2 ^^^ (w2 >>> 10)
    sha256Extend n (ws ++ [(ws.getD (i - 16) 0 + s0 + ws.getD (i - 7) 0 + s1) % 4294967296])

/-- One SHA-256 compression round; the state is the word list `[a,b,c,d,e,f,g,h]`. -/
def sha256Round (st : List Nat) (kw : Nat × Nat) : List Nat :=
  let a := st.getD 0 0
  let b := st.getD 1 0
  let c := st.getD 2 0
  let d := st.getD 3 0
  let e := st.getD 4 0
  let f := st.getD 5 0
  let g := st.getD 6 0
  let h := st.getD 7 0
  let bigS1 := rotr32 6 e ^^^ rotr32 11 e ^^^ rotr32 25 e
  let ch := (e &&& f) ^^^ ((e ^^^ 0xFFFFFFFF) &&& g)
  let t1 := (h + bigS1 + ch + kw.1 + kw.2) % 4294967296
  let bigS0 := rotr32 2 a ^^^ rotr32 13 a ^^^ rotr32 22 a
  let maj := (a &&& b) ^^^ (a &&& c) ^^^ (b &&& c)
  let t2 := (bigS0 + maj) % 4294967296
  [(t1 + t2) % 4294967296, a, b, c, (d + t1) % 4294967296, e, f, g]

/-- Process one 64-byte block, updating the eight-word hash state. -/
def sha256Block (h : List Nat) (block : List Nat) : List Nat :=
  let ws := sha256Extend 48 (bytesToWords block)
  let out := (sha256K.zip ws).foldl sha256Round h
  List.zipWith (fun x y => (x + y) % 4294967296) h out

/-- SHA-256 padding: append 0x80, zeros to 56 mod 64, then the 64-bit bit length. -/
def sha256Pad (msg : List Nat) : List Nat :=
  let bitLen := msg.length * 8
  let zeros := (119 - msg.length % 64) % 64
  msg ++ [0x80] ++ List.replicate zeros 0 ++
    [bitLen >>> 56 &&& 0xFF, bitLen >>> 48 &&& 0xFF, bitLen >>> 40 &&& 0xFF,
     bitLen >>> 32 &&& 0xFF, bitLen >>> 24 &&& 0xFF, bitLen >>> 16 &&& 0xFF,
     bitLen >>> 8 &&& 0xFF, bitLen &&& 0xFF]

/-- Split a byte list into 64-byte chunks (fuel-driven so that the kernel
can evaluate it; one unit of fuel per byte always suffices). -/
def chunks64Go : Nat → List Nat → List (List Nat)
  | 0, _ => []
  | _, [] => []
  | fuel + 1, l => l.take 64 :: chunks64Go fuel (l.drop 64)

/-- Split a byte list into 64-byte chunks. -/
def chunks64 (l : List Nat) : List (List Nat) :=
  chunks64Go l.length l

/-- SHA-256 digest of a byte list, as 32 bytes. -/
def sha256 (msg : List Nat) : List Nat :=
  listJoin (((chunks64 (sha256Pad msg)).foldl sha256Block sha256H0).map wordToBytes)

/-- Sanity anchor: the digest of the empty string matches the constant that
`src/transport/reality/crypto.rs` hard-codes in `hash_empty()`. -/
theorem sha256_empty_matches_crypto_rs_hash_empty :
    sha256 [] =
      [0xe3, 0xb0, 0xc4, 0x42, 0x98, 0xfc, 0x1c, 0x14, 0x9a, 0xfb, 0xf4, 0xc8,
       0x99, 0x6f, 0xb9, 0x24, 0x27, 0xae, 0x41, 0xe4, 0x64, 0x9b, 0x93, 0x4c,
       0xa4, 0x95, 0x99, 0x1b, 0x78, 0x52, 0xb8, 0x55] := by decide

/-! ## Reality ServerHello signature injection

Model of `src/transport/reality/auth.rs`, `RealityAuth::generate_auth_tag`
and `RealityAuth::inject_auth_into_random`. `private_key_bytes` is the
struct field of `RealityAuth` (32 bytes after construction). -/

/-- `RealityAuth::generate_auth_tag`: SHA-256 over
client_random ++ server_random ++ private_key_bytes. -/
def generate_auth_tag (private_key_bytes client_random server_random : List Nat) : List Nat :=
  sha256 (client_random ++ server_random ++ private_key_bytes)

/-- `RealityAuth::inject_auth_into_random`: keep the first 20 bytes of the
original ServerHello random, replace the last 12 by the tag's first 12 bytes. -/
def inject_auth_into_random (private_key_bytes original_random client_random : List Nat) :
    List Nat :=
  let auth_tag := generate_auth_tag private_key_bytes client_random original_random
  original_random.take 20 ++ auth_tag.take 12

/-- C1: the claim states that the bytes injected at ServerHello.random[20..32]
equal `HMAC-SHA256(AuthKey, ClientRandom ∥ modified_random[0..20])[0..12]`, a
quantity that depends only on the session AuthKey, the ClientRandom, and the
first 20 bytes of the ServerHello random. The code (`RealityAuth`) instead
computes `SHA-256(client_random ∥ server_random ∥ private_key)[0..12]`. At the
spec's own boundary inputs (private key 32×0x42, ClientRandom 32×0x99,
ServerHello random 0..31), changing only byte 31 of the server random — a byte
outside `random[0..20]` and outside any HMAC input of the claim — changes the
injected signature, while the first 20 bytes are preserved and the injected
bytes are exactly `SHA-256(cr ∥ sr ∥ key)[0..12]`. -/
theorem inject_auth_tag_depends_on_server_random_tail :
    (inject_auth_into_random (List.replicate 32 0x42) (List.range 32)
        (List.replicate 32 0x99)).take 20 = (List.range 32).take 20 ∧
    (List.range 32).take 20 = (List.range 31 ++ [0xFF]).take 20 ∧
    (inject_auth_into_random (List.replicate 32 0x42) (List.range 32)
        (List.replicate 32 0x99)).drop 20 =
      (sha256 (List.replicate 32 0x99 ++ List.range 32 ++
        List.replicate 32 0x42)).take 12 ∧
    (inject_auth_into_random (List.replicate 32 0x42) (List.range 32)
        (List.replicate 32 0x99)).drop 20 ≠
      (inject_auth_into_random (List.replicate 32 0x42) (List.range 31 ++ [0xFF])
        (List.replicate 32 0x99)).drop 20 := by
  refine ⟨by decide, by decide, by decide, by decide⟩

/-! ## ClientHello parser

Model of `src/transport/reality/hello_parser.rs`. The walkers over
extension lists are written with a fuel parameter (initialized with the
list length) so the kernel can evaluate them; every loop iteration of the
Rust code consumes at least one byte, so the fuel never runs out. -/

/-- Structural errors of `parse_client_hello` (one constructor per distinct
`anyhow!` message in the source). -/
inductive ParseErr where
  | shortHandshake
  | shortVersion
  | shortRandom
  | shortSessionIdLen
  | shortSessionId
  | shortCipherSuitesLen
  | shortCipherSuites
  | shortCompressionLen
  | shortCompression
  | shortExtensions
  deriving DecidableEq, Repr

/-- `hello_parser::ClientHelloInfo`. -/
structure ClientHelloInfo where
  session_id : List Nat
  client_random : List Nat
  public_key : Option (List Nat)
  server_name : Option (List Nat)
  deriving DecidableEq, Repr

/-- Inner walk of the key_share entries: pick the X25519 (group 0x001d)
share with key length 32. -/
def findX25519 : Nat → List Nat → Option (List Nat)
  | 0, _ => none
  | fuel + 1, shares =>
    if shares.length < 4 then none
    else
      let group := shares.getD 0 0 * 256 + shares.getD 1 0
      let key_len := shares.getD 2 0 * 256 + shares.getD 3 0
      let rest := shares.drop 4
      if rest.length < key_len then none
      else if group = 0x001d ∧ key_len = 32 then some (rest.take 32)
      else findX25519 fuel (rest.drop key_len)

/-- Inner walk of the server_name_list: first entry of type 0x00, decoded
only if its bytes are valid UTF-8 (the walk stops at the first host_name
entry whether or not decoding succeeds). -/
def findSniEntry : Nat → List Nat → Option (List Nat)
  | 0, _ => none
  | fuel + 1, l =>
    if l.length < 3 then none
    else
      let name_type := l.getD 0 0
      let name_len := l.getD 1 0 * 256 + l.getD 2 0
      let rest := l.drop 3
      if rest.length < name_len then none
      else if name_type = 0 then
        let name_bytes := rest.take name_len
        if utf8Valid name_bytes then some name_bytes else none
      else findSniEntry fuel (rest.drop name_len)

/-- The server_name extension body: a two-byte list length then the list. -/
def findSni (ext_data : List Nat) : Option (List Nat) :=
  if ext_data.length < 2 then none
  else
    let list_len := ext_data.getD 0 0 * 256 + ext_data.getD 1 0
    if ext_data.length - 2 < list_len then none
    else findSniEntry list_len ((ext_data.drop 2).take list_len)

/-- The outer extension walk of `parse_client_hello`: consume
{type(2), len(2), payload} entries, recording the SNI host name and the
X25519 key share; stop early once both are found (except when a malformed
key_share extension hits the `continue`, which skips that check). -/
def walkExtensions : Nat → List Nat → Option (List Nat) → Option (List Nat) →
    Option (List Nat) × Option (List Nat)
  | 0, _, pk, sni => (pk, sni)
  | fuel + 1, ext, pk, sni =>
    if ext.length < 4 then (pk, sni)
    else
      let ext_type := ext.getD 0 0 * 256 + ext.getD 1 0
      let ext_len := ext.getD 2 0 * 256 + ext.getD 3 0
      let body := ext.drop 4
      if body.length < ext_len then (pk, sni)
      else
        let ext_data := body.take ext_len
        let rest := body.drop ext_len
        let sni' := if ext_type = 0 then
            match findSni ext_data with
            | some s => some s
            | none => sni
          else sni
        if ext_type = 0x0033 then
          if ext_data.length < 2 then walkExtensions fuel rest pk sni'
          else
            let shares_len := ext_data.getD 0 0 * 256 + ext_data.getD 1 0
            if ext_data.length - 2 < shares_len then walkExtensions fuel rest pk sni'
            else
              let pk' := match findX25519 shares_len ((ext_data.drop 2).take shares_len) with
                | some k => some k
                | none => pk
              if pk'.isSome ∧ sni'.isSome then (pk', sni')
              else walkExtensions fuel rest pk' sni'
        else
          if pk.isSome ∧ sni'.isSome then (pk, sni')
          else walkExtensions fuel rest pk sni'

/-- Extensions stage of `parse_client_hello`: if fewer than two bytes
remain there are no extensions; otherwise bound the extension block and
walk it. -/
def parseExtensionsStage (session_id client_random cur : List Nat) :
    Except ParseErr (Option ClientHelloInfo) :=
  if cur.length < 2 then .ok (some ⟨session_id, client_random, none, none⟩)
  else
    let extensions_len := cur.getD 0 0 * 256 + cur.getD 1 0
    if (cur.drop 2).length < extensions_len then .error .shortExtensions
    else
      let r := walkExtensions extensions_len ((cur.drop 2).take extensions_len) none none
      .ok (some ⟨session_id, client_random, r.1, r.2⟩)

/-- Compression-methods stage of `parse_client_hello` (1-byte length,
skipped payload). -/
def parseCompressionStage (session_id client_random cur : List Nat) :
    Except ParseErr (Option ClientHelloInfo) :=
  if cur.length < 1 then .error .shortCompressionLen
  else
    let compression_len := cur.getD 0 0
    if (cur.drop 1).length < compression_len then .error .shortCompression
    else parseExtensionsStage session_id client_random ((cur.drop 1).drop compression_len)

/-- Cipher-suites stage of `parse_client_hello` (2-byte length, skipped
payload). -/
def parseCipherSuitesStage (session_id client_random cur : List Nat) :
    Except ParseErr (Option ClientHelloInfo) :=
  if cur.length < 2 then .error .shortCipherSuitesLen
  else
    let cipher_suites_len := cur.getD 0 0 * 256 + cur.getD 1 0
    if (cur.drop 2).length < cipher_suites_len then .error .shortCipherSuites
    else parseCompressionStage session_id client_random ((cur.drop 2).drop cipher_suites_len)

/-- Session-ID stage of `parse_client_hello` (1-byte length then the ID). -/
def parseSessionIdStage (client_random cur : List Nat) :
    Except ParseErr (Option ClientHelloInfo) :=
  if cur.length < 1 then .error .shortSessionIdLen
  else
    let session_id_len := cur.getD 0 0
    if (cur.drop 1).length < session_id_len then .error .shortSessionId
    else
      parseCipherSuitesStage ((cur.drop 1).take session_id_len) client_random
        ((cur.drop 1).drop session_id_len)

/-- Handshake-body stage of `parse_client_hello`: legacy version (2 bytes,
skipped) then the 32-byte client random. -/
def parseBodyStage (cur : List Nat) : Except ParseErr (Option ClientHelloInfo) :=
  if cur.length < 2 then .error .shortVersion
  else if (cur.drop 2).length < 32 then .error .shortRandom
  else parseSessionIdStage ((cur.drop 2).take 32) ((cur.drop 2).drop 32)

/-- `hello_parser::parse_client_hello`: returns `ok none` for non-TLS or
incomplete input, `error` for structurally short buffers, otherwise the
extracted `ClientHelloInfo`. The stage helpers above are the direct
continuation of the same straight-line Rust function. -/
def parse_client_hello (buf : List Nat) : Except ParseErr (Option ClientHelloInfo) :=
  if buf.length < 5 ∨ buf.getD 0 0 ≠ 0x16 then .ok none
  else if buf.length < 5 + (buf.getD 3 0 * 256 + buf.getD 4 0) then .ok none
  else
    if (buf.drop 5).length < 4 then .error .shortHandshake
    else if (buf.drop 5).getD 0 0 ≠ 0x01 then .ok none
    else parseBodyStage ((buf.drop 5).drop 4)

/-! ## Reality client verification

Model of `src/transport/reality/server_rustls.rs`,
`RealityServerRustls::verify_client_reality`. The X25519, HKDF-SHA256 and
AES-256-GCM primitives are abstracted as an oracle structure: the claims
about this function concern which byte slices are fed to the primitives
and how their success or failure steers the verdict, not the internals of
the primitives themselves. -/

/-- The cryptographic primitives used by the verifier: X25519
(`x25519_dalek::StaticSecret::diffie_hellman`), HKDF-SHA256
extract-then-expand (`hkdf::Hkdf::<Sha256>::new` + `expand`, `none`
mirroring an expand error), and AES-256-GCM open
(`aes_gcm::Aes256Gcm::decrypt_in_place`, `none` mirroring a tag failure). -/
structure CryptoPrims where
  x25519 : List Nat → List Nat → List Nat
  hkdfSha256 : List Nat → List Nat → List Nat → Nat → Option (List Nat)
  aesGcmOpen : List Nat → List Nat → List Nat → List Nat → Option (List Nat)

/-- The fields of `rustls::reality::RealityConfig` consulted by the verifier. -/
structure RealityCfg where
  private_key : List Nat
  short_ids : List (List Nat)

/-- The ASCII bytes of the HKDF info string "REALITY". -/
def realityLabel : List Nat := [0x52, 0x45, 0x41, 0x4C, 0x49, 0x54, 0x59]

/-- One byte as two lowercase hex character codes (`hex::encode`). -/
def hexByte (b : Nat) : List Nat :=
  [(fun n => if n < 10 then 48 + n else 87 + n) (b / 16 % 16),
   (fun n => if n < 10 then 48 + n else 87 + n) (b % 16)]

/-- `hex::encode` of a byte list, as the list of character codes. -/
def hexEncode (l : List Nat) : List Nat := listJoin (l.map hexByte)

/-- `str::find`: index of the first occurrence of `pat` in `hay`. -/
def indexOfSub (pat : List Nat) : List Nat → Option Nat
  | [] => if pat.isPrefixOf ([] : List Nat) then some 0 else none
  | a :: t =>
    if pat.isPrefixOf (a :: t) then some 0
    else (indexOfSub pat t).map (· + 1)

/-- Overwrite up to `n` bytes with zeros. -/
def zeroCount : Nat → List Nat → List Nat
  | _, [] => []
  | 0, l => l
  | n + 1, _ :: t => 0 :: zeroCount n t

/-- Zero the (at most) 32 bytes starting at `pos`, exactly like the bounded
loop `for i in 0..32 { if pos + i < len { buf[pos+i] = 0 } }`. -/
def zero32At (pos : Nat) (l : List Nat) : List Nat :=
  l.take pos ++ zeroCount 32 (l.drop pos)

/-- Strip the 5-byte TLS record header when present
(`if full_client_hello.len() > 5 && full_client_hello[0] == 0x16`). -/
def stripRecordHeader (full : List Nat) : List Nat :=
  if 5 < full.length ∧ full.getD 0 0 = 0x16 then full.drop 5 else full

/-- AAD construction of `verify_client_reality`: hex-encode the handshake
message and the SessionID, find the first occurrence of the latter in the
former, zero 32 bytes at the (character index / 2) byte position; if not
found, fall back to zeroing at the guessed offset 39 when the buffer is
long enough. -/
def codeAad (session_id msg : List Nat) : List Nat :=
  match indexOfSub (hexEncode session_id) (hexEncode msg) with
  | some pos_char => zero32At (pos_char / 2) msg
  | none => if 39 + 32 ≤ msg.length then zero32At 39 msg else msg

/-- Step 6 of `verify_client_reality` (the ShortId check, lines 254..284):
reject plaintexts shorter than 16 bytes, then compare every configured
Short ID against the fixed windows `buffer[4..12]` and `buffer[8..16]`. -/
def shortIdMatches (short_ids : List (List Nat)) (buffer : List Nat) : Bool :=
  if buffer.length < 16 then false
  else
    let sid_4 := (buffer.drop 4).take 8
    let sid_8 := (buffer.drop 8).take 8
    short_ids.any (fun param_id => param_id == sid_4 || param_id == sid_8)

/-- `RealityServerRustls::verify_client_reality`, translated line by line
over the primitive oracles. -/
def verify_client_reality (p : CryptoPrims) (cfg : RealityCfg)
    (info : ClientHelloInfo) (full_client_hello : List Nat) : Bool :=
  if info.session_id.length ≠ 32 then false
  else match info.public_key with
    | none => false
    | some client_pub_key_bytes =>
      if client_pub_key_bytes.length ≠ 32 then false
      else if cfg.private_key.length ≠ 32 then false
      else
        let shared_secret := p.x25519 cfg.private_key client_pub_key_bytes
        let salt := info.client_random.take 20
        match p.hkdfSha256 salt shared_secret realityLabel 32 with
        | none => false
        | some auth_key =>
          let nonce := (info.client_random.drop 20).take 12
          let handshake_msg := stripRecordHeader full_client_hello
          let aad_buffer := codeAad info.session_id handshake_msg
          match p.aesGcmOpen auth_key nonce aad_buffer info.session_id with
          | none => false
          | some buffer => shortIdMatches cfg.short_ids buffer

/-- Modelled from the spec: §4.2 "Reality Verifier" algorithm, written from
the specification's own words, with the AAD formed by zeroing the 32
SessionID bytes at their position `sidOff` inside the handshake message.
Used only as the comparison point for refinement of the code above. -/
def specVerifyToken (p : CryptoPrims) (cfg : RealityCfg)
    (info : ClientHelloInfo) (full_client_hello : List Nat) (sidOff : Nat) : Bool :=
  if info.session_id.length ≠ 32 then false
  else match info.public_key with
    | none => false
    | some client_pub_key_bytes =>
      if client_pub_key_bytes.length ≠ 32 then false
      else if cfg.private_key.length ≠ 32 then false
      else
        let shared_secret := p.x25519 cfg.private_key client_pub_key_bytes
        match p.hkdfSha256 (info.client_random.take 20) shared_secret realityLabel 32 with
        | none => false
        | some auth_key =>
          let handshake_msg := stripRecordHeader full_client_hello
          let aad := zero32At sidOff handshake_msg
          match p.aesGcmOpen auth_key ((info.client_random.drop 20).take 12) aad
              info.session_id with
          | none => false
          | some plaintext => shortIdMatches cfg.short_ids plaintext

/-- Matching with an empty Short ID list always fails. -/
theorem shortIdMatches_nil (buffer : List Nat) : shortIdMatches [] buffer = false := by
  unfold shortIdMatches
  split <;> simp

/-- C3 amended: whenever the verifier's hex substring search for the
SessionID first fires at an even character position `2 * off` of the
hex-encoded, record-header-stripped handshake message — in particular
whenever `off` is the SessionID's true offset and no earlier or misaligned
hex match exists — the verifier computes exactly the spec's equation:
AuthKey = HKDF-SHA256(salt = ClientRandom[0..20],
ikm = X25519(server_private, client_public), info = "REALITY", L = 32),
then AES-256-GCM over nonce = ClientRandom[20..32] and AAD = handshake
bytes with 32 bytes zeroed at `off` — and any GCM opening failure makes it
reject. (When the first hex match is at an odd position the zeroed window
is misaligned and the AAD differs from the claimed one; see the
counterexample theorem below.) -/
theorem verify_client_reality_matches_spec (p : CryptoPrims) (cfg : RealityCfg)
    (info : ClientHelloInfo) (full : List Nat) (off : Nat)
    (hfind : indexOfSub (hexEncode info.session_id)
      (hexEncode (stripRecordHeader full)) = some (2 * off)) :
    verify_client_reality p cfg info full = specVerifyToken p cfg info full off ∧
    (∀ q : CryptoPrims, (∀ k n a c, q.aesGcmOpen k n a c = none) →
      verify_client_reality q cfg info full = false) := by
  have haad : codeAad info.session_id (stripRecordHeader full) =
      zero32At off (stripRecordHeader full) := by
    have h2 : 2 * off / 2 = off := by omega
    unfold codeAad
    rw [hfind]
    show zero32At (2 * off / 2) (stripRecordHeader full) =
      zero32At off (stripRecordHeader full)
    rw [h2]
  constructor
  · simp only [verify_client_reality, specVerifyToken, haad]
  · intro q hq
    simp only [verify_client_reality, hq]
    split
    · rfl
    · split
      · rfl
      · split
        · rfl
        · split
          · rfl
          · split <;> rfl

/-- Concrete crypto oracles for witnesses: constant shared secret, key, and
a decrypted plaintext whose bytes [4..12] are eight 3s. -/
def cPrims : CryptoPrims :=
  ⟨fun _ _ => List.replicate 32 1,
   fun _ _ _ _ => some (List.replicate 32 2),
   fun _ _ _ _ => some (List.replicate 4 0 ++ List.replicate 8 3 ++ List.replicate 4 0)⟩

/-- A concrete configuration accepting the 8-byte Short ID 03×8. -/
def cCfg : RealityCfg := ⟨List.replicate 32 7, [List.replicate 8 3]⟩

/-- A concrete parsed ClientHello: SessionID 32×5, ClientRandom 0..31,
an X25519 key share of 32×9. -/
def cInfo : ClientHelloInfo :=
  ⟨List.replicate 32 5, List.range 32, some (List.replicate 32 9), none⟩

/-- A concrete raw record whose handshake body contains the SessionID bytes
at offset 2. -/
def cFull : List Nat :=
  [0x16, 3, 1, 0, 40] ++ [9, 9] ++ List.replicate 32 5 ++ [7, 7, 7, 7, 7, 7]

/-- Witness for C3 at the concrete inputs above: the substring search finds
the SessionID at byte offset 2 and the refinement theorem applies. -/
theorem verify_client_reality_matches_spec_witness :
    indexOfSub (hexEncode cInfo.session_id)
      (hexEncode (stripRecordHeader cFull)) = some (2 * 2) ∧
    (verify_client_reality cPrims cCfg cInfo cFull = specVerifyToken cPrims cCfg cInfo cFull 2 ∧
     (∀ q : CryptoPrims, (∀ k n a c, q.aesGcmOpen k n a c = none) →
       verify_client_reality q cCfg cInfo cFull = false)) :=
  ⟨by decide, verify_client_reality_matches_spec cPrims cCfg cInfo cFull 2 (by decide)⟩

/-- An all-zero 32-byte SessionID, for the C3 counterexample. -/
def c3Sid : List Nat := List.replicate 32 0

/-- A canonical ClientHello handshake message whose SessionID (offset 39,
after type(1) + length(3) + version(2) + random(32) + sid_length(1)) is
`c3Sid`: the random is 32 bytes of 0x11, the SessionID-length byte is
0x20, and a cipher-suite tail follows. -/
def c3Msg : List Nat :=
  [0x01, 0x00, 0x00, 0x46, 0x03, 0x03] ++ List.replicate 32 0x11 ++
    [0x20] ++ List.replicate 32 0 ++ [0x13, 0x01]

/-- `c3Msg` wrapped in a TLS handshake record header. -/
def c3Full : List Nat := [0x16, 0x03, 0x01, 0x00, 0x49] ++ c3Msg

/-- The parsed info of `c3Full`: all-zero SessionID, random 32 bytes of
0x11, an X25519 key share present. -/
def c3Info : ClientHelloInfo :=
  ⟨c3Sid, List.replicate 32 0x11, some (List.replicate 32 9), none⟩

/-- The AAD the claim prescribes for `c3Full`: the handshake bytes with
the 32 SessionID bytes (offset 39) zeroed. -/
def c3SpecAad : List Nat := zero32At 39 c3Msg

/-- Oracles whose GCM opening succeeds exactly on the claim's AAD (and
yields a plaintext whose bytes [4..12] match the configured Short ID
03 x 8 of `cCfg`): under the claim these oracles must make the verifier
accept `c3Full`. -/
def c3Prims : CryptoPrims :=
  ⟨fun _ _ => List.replicate 32 1,
   fun _ _ _ _ => some (List.replicate 32 2),
   fun _ _ aad _ =>
     if aad = c3SpecAad then
       some (List.replicate 4 0 ++ List.replicate 8 3 ++ List.replicate 4 0)
     else none⟩

/-- C3 counterexample: on this ClientHello — 32-byte SessionID of zeros,
32-byte key share, SessionID at its canonical offset 39 — the hex
substring search first fires at the odd character index 77 (the low
nibble of the 0x20 length byte), so the code zeroes the misaligned byte
window 38..69, destroying the SessionID-length byte; the AAD handed to
GCM is not the handshake bytes with the 32 SessionID bytes zeroed. With
oracles whose GCM opens exactly under the claimed AAD and yields a
matching Short ID plaintext, the claim says the verifier accepts (the
spec-modelled verifier does), but the code rejects. -/
theorem verify_aad_misaligned_at_odd_hex_match :
    indexOfSub (hexEncode c3Sid) (hexEncode (stripRecordHeader c3Full)) = some 77 ∧
    codeAad c3Sid (stripRecordHeader c3Full) ≠ zero32At 39 (stripRecordHeader c3Full) ∧
    specVerifyToken c3Prims cCfg c3Info c3Full 39 = true ∧
    verify_client_reality c3Prims cCfg c3Info c3Full = false := by
  refine ⟨by decide, by decide, by decide, by decide⟩

/-- C5: the verifier accepts only when the SessionID is exactly 32 bytes,
an X25519 key share of exactly 32 bytes is present, and the configured
Short ID list is non-empty; a missing SessionID or key share, or an empty
Short ID list, always rejects (for every oracle instantiation, i.e. the
connection falls back no matter what the crypto returns). -/
theorem verify_client_reality_only_if_valid (p : CryptoPrims) (cfg : RealityCfg)
    (info : ClientHelloInfo) (full : List Nat) :
    (verify_client_reality p cfg info full = true →
      info.session_id.length = 32 ∧
      (∃ pk, info.public_key = some pk ∧ pk.length = 32) ∧
      cfg.short_ids ≠ []) ∧
    (info.session_id.length ≠ 32 → verify_client_reality p cfg info full = false) ∧
    (info.public_key = none → verify_client_reality p cfg info full = false) ∧
    (cfg.short_ids = [] → verify_client_reality p cfg info full = false) := by
  refine ⟨?_, ?_, ?_, ?_⟩
  · intro h
    simp only [verify_client_reality] at h
    split at h
    · exact absurd h (by simp)
    · rename_i hlen
      split at h
      · exact absurd h (by simp)
      · rename_i pk hpk
        split at h
        · exact absurd h (by simp)
        · rename_i hpklen
          split at h
          · exact absurd h (by simp)
          · split at h
            · exact absurd h (by simp)
            · split at h
              · exact absurd h (by simp)
              · rename_i buffer hbuf
                refine ⟨by omega, ⟨pk, hpk, by omega⟩, ?_⟩
                intro hnil
                rw [hnil, shortIdMatches_nil] at h
                exact absurd h (by simp)
  · intro hlen
    simp only [verify_client_reality]
    simp [hlen]
  · intro hpk
    simp only [verify_client_reality]
    rw [hpk]
    split <;> rfl
  · intro hnil
    simp only [verify_client_reality, hnil, shortIdMatches_nil]
    split
    · rfl
    · split
      · rfl
      · split
        · rfl
        · split
          · rfl
          · split
            · rfl
            · split <;> rfl

/-- Witness for C5 at concrete inputs: a ClientHello with no key share is
rejected whatever the oracles do, and an empty Short ID list rejects. -/
theorem verify_client_reality_only_if_valid_witness :
    verify_client_reality cPrims cCfg
      ⟨List.replicate 32 5, List.range 32, none, none⟩ cFull = false ∧
    verify_client_reality cPrims ⟨List.replicate 32 7, []⟩ cInfo cFull = false :=
  ⟨(verify_client_reality_only_if_valid cPrims cCfg
      ⟨List.replicate 32 5, List.range 32, none, none⟩ cFull).2.2.1 rfl,
   (verify_client_reality_only_if_valid cPrims ⟨List.replicate 32 7, []⟩
      cInfo cFull).2.2.2 rfl⟩

/-- Oracles whose decrypted plaintext has the single byte 1 at offset 4
(so a configured Short ID of declared length 1 matches the window
[4..4+1] in the sense of the claim). -/
def c2Prims : CryptoPrims :=
  ⟨fun _ _ => List.replicate 32 1,
   fun _ _ _ _ => some (List.replicate 32 2),
   fun _ _ _ _ => some [0, 0, 0, 0, 1, 0, 0, 0, 0, 0, 0, 0, 0, 0, 0, 0]⟩

/-- A configuration whose single Short ID is the one-byte string 0x01. -/
def c2Cfg : RealityCfg := ⟨List.replicate 32 7, [[1]]⟩

/-- C2 counterexample: with the configured Short ID `[0x01]` of declared
length L = 1 and a decrypted plaintext whose bytes [4..5] equal that Short
ID, the claim says the verifier accepts; the code compares the whole
8-byte windows `plaintext[4..12]` and `plaintext[8..16]` against the
1-byte Short ID, never matches, and rejects. -/
theorem shortid_short_length_rejected :
    (([0, 0, 0, 0, 1, 0, 0, 0, 0, 0, 0, 0, 0, 0, 0, 0] : List Nat).drop 4).take 1 = [1] ∧
    c2Cfg.short_ids = [[1]] ∧
    verify_client_reality c2Prims c2Cfg cInfo cFull = false := by
  refine ⟨by decide, by decide, by decide⟩

/-- C2 amended: the Short ID check accepts exactly when the plaintext has at
least 16 bytes and some configured Short ID equals the whole 8-byte window
[4..12] or the whole 8-byte window [8..16]; consequently every Short ID
that ever matches has length exactly 8 (declared lengths below 8 never
match). -/
theorem shortIdMatches_iff (ids : List (List Nat)) (buffer : List Nat) :
    (shortIdMatches ids buffer = true ↔
      16 ≤ buffer.length ∧
      ∃ id ∈ ids, id = (buffer.drop 4).take 8 ∨ id = (buffer.drop 8).take 8) ∧
    (shortIdMatches ids buffer = true →
      ∀ id ∈ ids, (id = (buffer.drop 4).take 8 ∨ id = (buffer.drop 8).take 8) →
        id.length = 8) := by
  have hlen : shortIdMatches ids buffer = true → 16 ≤ buffer.length := by
    intro h
    unfold shortIdMatches at h
    split at h
    · exact absurd h (by simp)
    · omega
  constructor
  · constructor
    · intro h
      refine ⟨hlen h, ?_⟩
      have h16 := hlen h
      unfold shortIdMatches at h
      split at h
      · exact absurd h (by simp)
      · simp only [List.any_eq_true, Bool.or_eq_true, beq_iff_eq] at h
        obtain ⟨id, hid, hmatch⟩ := h
        exact ⟨id, hid, hmatch⟩
    · rintro ⟨h16, id, hid, hmatch⟩
      unfold shortIdMatches
      split
      · omega
      · simp only [List.any_eq_true, Bool.or_eq_true, beq_iff_eq]
        exact ⟨id, hid, hmatch⟩
  · intro h id _ hmatch
    have h16 := hlen h
    rcases hmatch with hm | hm <;>
      simp [hm, List.length_take, List.length_drop] <;> omega

/-- Witness for C2's amended theorem: the 8-byte Short ID 03×8 matches the
window [4..12] of a concrete 16-byte plaintext, and its length is 8. -/
theorem shortIdMatches_iff_witness :
    shortIdMatches [List.replicate 8 3]
      (List.replicate 4 0 ++ List.replicate 8 3 ++ List.replicate 4 0) = true ∧
    (List.replicate 8 3 : List Nat).length = 8 :=
  ⟨((shortIdMatches_iff [List.replicate 8 3]
      (List.replicate 4 0 ++ List.replicate 8 3 ++ List.replicate 4 0)).1).2
      ⟨by decide, List.replicate 8 3, by decide, by decide⟩,
   (shortIdMatches_iff [List.replicate 8 3]
      (List.replicate 4 0 ++ List.replicate 8 3 ++ List.replicate 4 0)).2
      (by decide) (List.replicate 8 3) (by decide) (by decide)⟩

/-- C8 counterexample: the claim says the "not ClientHello" result (first
byte ≠ 0x16) is distinct from the "incomplete" result; in the code both
are the same value `Ok(None)`, as these two concrete inputs show — the
first is non-TLS, the second is a truncated handshake record announcing
five more bytes than present. -/
theorem parse_incomplete_and_non_tls_results_equal :
    parse_client_hello [0x17] = Except.ok none ∧
    parse_client_hello [0x16, 0x03, 0x01, 0x00, 0x05] = Except.ok none ∧
    parse_client_hello [0x17] = parse_client_hello [0x16, 0x03, 0x01, 0x00, 0x05] := by
  refine ⟨by decide, by decide, by decide⟩

/-- C8 amended: partial or truncated input (fewer than 5 bytes, or a
handshake record whose announced length exceeds the buffer) and non-TLS
input (first byte ≠ 0x16) all yield the same non-error result `ok none`;
neither case is reported as a parse error, but the two cases are not
distinguishable from the result. -/
theorem parse_client_hello_non_error (buf : List Nat) :
    (buf.length < 5 → parse_client_hello buf = .ok none) ∧
    (buf.getD 0 0 ≠ 0x16 → parse_client_hello buf = .ok none) ∧
    (buf.getD 0 0 = 0x16 → buf.length < 5 + (buf.getD 3 0 * 256 + buf.getD 4 0) →
      parse_client_hello buf = .ok none) := by
  refine ⟨?_, ?_, ?_⟩
  · intro h
    unfold parse_client_hello
    split
    · rfl
    · rename_i hcond
      exact absurd (Or.inl h) hcond
  · intro h
    unfold parse_client_hello
    split
    · rfl
    · rename_i hcond
      exact absurd (Or.inr h) hcond
  · intro h1 h2
    unfold parse_client_hello
    by_cases h5 : buf.length < 5 ∨ buf.getD 0 0 ≠ 0x16
    · rw [if_pos h5]
    · rw [if_neg h5, if_pos h2]

/-- Witness for C8's amended theorem at concrete inputs: a three-byte
fragment, a plaintext HTTP request line, and a truncated TLS record. -/
theorem parse_client_hello_non_error_witness :
    parse_client_hello [0x16, 0x03] = .ok none ∧
    parse_client_hello [0x47, 0x45, 0x54, 0x20, 0x2F, 0x20] = .ok none ∧
    parse_client_hello [0x16, 0x03, 0x03, 0x01, 0x00, 0x01] = .ok none :=
  ⟨(parse_client_hello_non_error [0x16, 0x03]).1 (by decide),
   (parse_client_hello_non_error [0x47, 0x45, 0x54, 0x20, 0x2F, 0x20]).2.1 (by decide),
   (parse_client_hello_non_error [0x16, 0x03, 0x03, 0x01, 0x00, 0x01]).2.2
     (by decide) (by decide)⟩

/-! ## VLESS address codec

Model of `src/protocol/vless/address.rs`. Decoding is state-passing: the
second component is the unconsumed remainder of the buffer (the `BytesMut`
cursor position after the call), including after errors, which matters
because the caller inspects the partially consumed buffer. -/

/-- `vless::Address` (domain names as their UTF-8 bytes, ports as `Nat`
values below 2^16). -/
inductive Address where
  | ipv4 (octets : List Nat) (port : Nat)
  | domain (name : List Nat) (port : Nat)
  | ipv6 (octets : List Nat) (port : Nat)
  deriving DecidableEq, Repr

/-- Error kinds of `Address::decode`, one per distinct `anyhow!`/UTF-8
error in the source. -/
inductive AddrErr where
  | shortAddrType
  | shortIpv4
  | shortDomainLen
  | shortDomain
  | invalidUtf8
  | shortIpv6
  | unknownTypeZero
  | unknownType (t : Nat)
  deriving DecidableEq, Repr

/-- The invariants the Rust types guarantee for an `Address` value:
`Ipv4Addr`/`Ipv6Addr` octet counts, `u16` ports, and `String` domains
(valid UTF-8); the length bound 255 is the amendment forced by the
`as u8` cast in the encoder. -/
def addressValid : Address → Prop
  | .ipv4 o p => o.length = 4 ∧ p < 65536
  | .domain n p => n.length ≤ 255 ∧ utf8Valid n = true ∧ p < 65536
  | .ipv6 o p => o.length = 16 ∧ p < 65536

instance (a : Address) : Decidable (addressValid a) := by
  cases a <;> simp only [addressValid] <;> infer_instance

/-- `Address::encode`: tag byte, payload, then the big-endian 16-bit port
(the domain length is written with the truncating `as u8` cast). -/
def encodeAddress : Address → List Nat
  | .ipv4 o p => 1 :: (o ++ [p / 256 % 256, p % 256])
  | .domain n p => 2 :: n.length % 256 :: (n ++ [p / 256 % 256, p % 256])
  | .ipv6 o p => 3 :: (o ++ [p / 256 % 256, p % 256])

/-- `Address::decode`, including the type-0x00 heuristic branch. -/
def decodeAddress (buf : List Nat) : Except AddrErr Address × List Nat :=
  match buf with
  | [] => (.error .shortAddrType, [])
  | addr_type :: rest =>
    if addr_type = 1 then
      if rest.length < 6 then (.error .shortIpv4, rest)
      else
        let r2 := rest.drop 4
        (.ok (.ipv4 (rest.take 4) (r2.getD 0 0 * 256 + r2.getD 1 0)), r2.drop 2)
    else if addr_type = 2 then
      match rest with
      | [] => (.error .shortDomainLen, [])
      | len :: r =>
        if r.length < len + 2 then (.error .shortDomain, r)
        else
          let d := r.take len
          if utf8Valid d then
            let r2 := r.drop len
            (.ok (.domain d (r2.getD 0 0 * 256 + r2.getD 1 0)), r2.drop 2)
          else (.error .invalidUtf8, r.drop len)
    else if addr_type = 3 then
      if rest.length < 18 then (.error .shortIpv6, rest)
      else
        let r2 := rest.drop 16
        (.ok (.ipv6 (rest.take 16) (r2.getD 0 0 * 256 + r2.getD 1 0)), r2.drop 2)
    else if addr_type = 0 then
      match rest with
      | [] => (.error .unknownTypeZero, [])
      | len :: r =>
        if len + 2 ≤ r.length ∧ 0 < len ∧ len < 256 then
          let d := r.take len
          if utf8Valid d then
            let r2 := r.drop len
            (.ok (.domain d (r2.getD 0 0 * 256 + r2.getD 1 0)), r2.drop 2)
          else (.error .unknownTypeZero, r.drop len)
        else (.error .unknownTypeZero, r)
    else (.error (.unknownType addr_type), rest)

/-- C7 counterexample: a Domain address with a 256-byte name (256 times
0x61, port 443) does not round-trip: the `as u8` cast writes length byte
0, so decoding returns the empty domain with port 0x6161 and a 256-byte
remainder, not the original value. -/
theorem address_roundtrip_fails_at_256 :
    decodeAddress (encodeAddress (.domain (List.replicate 256 97) 443)) =
      (.ok (.domain [] 24929), List.replicate 254 97 ++ [1, 187]) ∧
    (Address.domain [] 24929) ≠ (Address.domain (List.replicate 256 97) 443) := by
  refine ⟨by decide, by decide⟩

/-- The ASCII bytes of "example.com". -/
def exampleCom : List Nat :=
  [0x65, 0x78, 0x61, 0x6D, 0x70, 0x6C, 0x65, 0x2E, 0x63, 0x6F, 0x6D]

/-- C7 amended: every Address whose fields satisfy the Rust type
invariants and whose domain name is at most 255 bytes round-trips through
encode then decode, consuming the whole encoding; and the spec's concrete
example holds: Domain("example.com", 443) encodes to
`02 0B 65 78 61 6D 70 6C 65 2E 63 6F 6D 01 BB` and decodes back. -/
theorem address_roundtrip (a : Address) (h : addressValid a) :
    decodeAddress (encodeAddress a) = (.ok a, []) ∧
    encodeAddress (.domain exampleCom 443) =
      [0x02, 0x0B, 0x65, 0x78, 0x61, 0x6D, 0x70, 0x6C, 0x65, 0x2E, 0x63, 0x6F, 0x6D,
       0x01, 0xBB] ∧
    decodeAddress [0x02, 0x0B, 0x65, 0x78, 0x61, 0x6D, 0x70, 0x6C, 0x65, 0x2E, 0x63,
      0x6F, 0x6D, 0x01, 0xBB] = (.ok (.domain exampleCom 443), []) := by
  refine ⟨?_, by decide, by decide⟩
  cases a with
  | ipv4 o p =>
    obtain ⟨hlen, hport⟩ := h
    have hp : p / 256 % 256 * 256 + p % 256 = p := by omega
    have h6 : ¬ (o ++ [p / 256 % 256, p % 256]).length < 6 := by simp [hlen]
    simp [encodeAddress, decodeAddress, h6, hp,
      List.take_left' hlen, List.drop_left' hlen]
    omega
  | domain n p =>
    obtain ⟨hlen, hutf, hport⟩ := h
    have hp : p / 256 % 256 * 256 + p % 256 = p := by omega
    have hmod : n.length % 256 = n.length := Nat.mod_eq_of_lt (by omega)
    have h2 : ¬ ((n ++ [p / 256 % 256, p % 256]).length < n.length + 2) := by simp
    simp [encodeAddress, decodeAddress, hmod, h2, hutf, hp,
      List.take_left, List.drop_left]
  | ipv6 o p =>
    obtain ⟨hlen, hport⟩ := h
    have hp : p / 256 % 256 * 256 + p % 256 = p := by omega
    have h18 : ¬ (o ++ [p / 256 % 256, p % 256]).length < 18 := by simp [hlen]
    simp [encodeAddress, decodeAddress, h18, hp,
      List.take_left' hlen, List.drop_left' hlen]
    omega

/-- Witness for C7's amended theorem: the round-trip applied to the spec's
own Domain("example.com", 443) example. -/
theorem address_roundtrip_witness :
    decodeAddress (encodeAddress (.domain exampleCom 443)) =
      (.ok (.domain exampleCom 443), []) :=
  (address_roundtrip (.domain exampleCom 443) (by decide)).1

/-! ## VLESS request decoding

Model of `src/protocol/vless/request.rs`, `VlessRequest::decode`. As with
addresses, the second component is the buffer remainder after the call:
the Rust decoder consumes from the `BytesMut` it is handed even when it
then errors, which the connection handler later observes. -/

/-- `vless::Command` (`0x01` TCP, `0x02` UDP, `0x03` MUX). -/
inductive Command where
  | tcp
  | udp
  | mux
  deriving DecidableEq, Repr

/-- `Command::from_u8`. -/
def commandFromByte (b : Nat) : Option Command :=
  if b = 1 then some .tcp else if b = 2 then some .udp
  else if b = 3 then some .mux else none

/-- `vless::VlessRequest` (the UUID as its 16 bytes). -/
structure VlessRequest where
  version : Nat
  uuid : List Nat
  command : Command
  address : Address
  addon_length : Nat
  deriving DecidableEq, Repr

/-- Error kinds of `VlessRequest::decode`, one per distinct `anyhow!`
message plus the propagated address errors. -/
inductive VlessError where
  | shortBuffer
  | unsupportedVersion (v : Nat)
  | unauthorizedUuid (u : List Nat)
  | shortAddon
  | shortCommand
  | unknownCommand (b : Nat)
  | addr (e : AddrErr)
  deriving DecidableEq, Repr

/-- Command-and-address stage of `VlessRequest::decode`. -/
def decodeRequestCommandStage (version : Nat) (uuid : List Nat) (addon_length : Nat)
    (cur : List Nat) : Except VlessError VlessRequest × List Nat :=
  if cur.length < 1 then (.error .shortCommand, cur)
  else match commandFromByte (cur.headD 0) with
    | none => (.error (.unknownCommand (cur.headD 0)), cur.tail)
    | some command =>
      match decodeAddress cur.tail with
      | (.ok address, rem) => (.ok ⟨version, uuid, command, address, addon_length⟩, rem)
      | (.error e, rem) => (.error (.addr e), rem)

/-- Addon stage of `VlessRequest::decode` (1-byte length, skipped bytes). -/
def decodeRequestAddonStage (version : Nat) (uuid : List Nat) (cur : List Nat) :
    Except VlessError VlessRequest × List Nat :=
  let addon_length := cur.headD 0
  if cur.tail.length < addon_length then (.error .shortAddon, cur.tail)
  else decodeRequestCommandStage version uuid addon_length (cur.tail.drop addon_length)

/-- `VlessRequest::decode`: length guard, version check, allow-list check,
then the stages above. -/
def decode_request (buf : List Nat) (allowed : List (List Nat)) :
    Except VlessError VlessRequest × List Nat :=
  if buf.length < 22 then (.error .shortBuffer, buf)
  else if buf.headD 0 ≠ 0 then (.error (.unsupportedVersion (buf.headD 0)), buf.tail)
  else if ¬ allowed.contains (buf.tail.take 16) then
    (.error (.unauthorizedUuid (buf.tail.take 16)), buf.tail.drop 16)
  else decodeRequestAddonStage (buf.headD 0) (buf.tail.take 16) (buf.tail.drop 16)

/-- The command stage can only succeed with the version and UUID it was
handed. -/
theorem decodeRequestCommandStage_ok (v : Nat) (u : List Nat) (al : Nat)
    (cur : List Nat) (r : VlessRequest) (rem : List Nat)
    (h : decodeRequestCommandStage v u al cur = (.ok r, rem)) :
    r.version = v ∧ r.uuid = u := by
  unfold decodeRequestCommandStage at h
  split at h
  · exact absurd h (by simp)
  · split at h
    · exact absurd h (by simp)
    · split at h
      · rename_i a remA heq
        rw [Prod.mk.injEq] at h
        obtain ⟨h1, h2⟩ := h
        cases h1
        exact ⟨rfl, rfl⟩
      · exact absurd h (by simp)

/-- Sanity anchor (spec §8 scenario 4): the literal VLESS header
`00 ∥ uuid ∥ 00 ∥ 01 ∥ 01 01 01 01 01 00 50` with the UUID allow-listed
decodes to version 0, command TCP, address 1.1.1.1:80. -/
theorem decode_request_scenario4 :
    decode_request
      ([0x00] ++ [0xB8, 0x31, 0x38, 0x1D, 0x63, 0x24, 0x4D, 0x53,
        0xAD, 0x4F, 0x8C, 0xDA, 0x48, 0xB3, 0x08, 0x11] ++
        [0x00, 0x01, 0x01, 0x01, 0x01, 0x01, 0x01, 0x00, 0x50])
      [[0xB8, 0x31, 0x38, 0x1D, 0x63, 0x24, 0x4D, 0x53,
        0xAD, 0x4F, 0x8C, 0xDA, 0x48, 0xB3, 0x08, 0x11]] =
    (.ok ⟨0, [0xB8, 0x31, 0x38, 0x1D, 0x63, 0x24, 0x4D, 0x53,
        0xAD, 0x4F, 0x8C, 0xDA, 0x48, 0xB3, 0x08, 0x11],
      .tcp, .ipv4 [1, 1, 1, 1] 80, 0⟩, []) := by decide

/-- C6: decoding yields a request only when the version byte is 0 and the
16-byte UUID is allow-listed; with the header fields present, a nonzero
version yields the unsupported-version error and a non-allow-listed UUID the
unauthorized-UUID error (distinct constructors of the error type), and no
request value is produced in either case. -/
theorem decode_request_version_and_uuid (buf : List Nat) (allowed : List (List Nat)) :
    (∀ r rem, decode_request buf allowed = (.ok r, rem) →
      buf.headD 0 = 0 ∧ r.version = 0 ∧ allowed.contains r.uuid = true) ∧
    (22 ≤ buf.length → buf.headD 0 ≠ 0 →
      (decode_request buf allowed).1 = .error (.unsupportedVersion (buf.headD 0))) ∧
    (22 ≤ buf.length → buf.headD 0 = 0 → allowed.contains (buf.tail.take 16) = false →
      (decode_request buf allowed).1 = .error (.unauthorizedUuid (buf.tail.take 16))) := by
  refine ⟨?_, ?_, ?_⟩
  · intro r rem h
    unfold decode_request at h
    split at h
    · exact absurd h (by simp)
    · split at h
      · exact absurd h (by simp)
      · split at h
        · exact absurd h (by simp)
        · rename_i hlen hver hcontains
          simp only [decodeRequestAddonStage] at h
          split at h
          · exact absurd h (by simp)
          · have hok := decodeRequestCommandStage_ok _ _ _ _ _ _ h
            rw [not_not] at hver hcontains
            exact ⟨hver, by rw [hok.1, hver], by rw [hok.2]; exact hcontains⟩
  · intro hlen hver
    unfold decode_request
    rw [if_neg (by omega), if_pos hver]
  · intro hlen hver hcontains
    unfold decode_request
    rw [if_neg (by omega), if_neg (by rw [ne_eq, not_not]; exact hver),
      if_pos (by rw [hcontains]; simp)]

/-- Witness for C6 at concrete buffers: a 22-byte buffer with version
0x47 and a 22-byte buffer whose UUID is not in the allow-list. -/
theorem decode_request_version_and_uuid_witness :
    (decode_request (0x47 :: List.replicate 21 0) []).1 =
      .error (.unsupportedVersion 0x47) ∧
    (decode_request (0 :: List.replicate 21 0) [List.replicate 16 1]).1 =
      .error (.unauthorizedUuid (List.replicate 16 0)) := by
  constructor
  · have h := (decode_request_version_and_uuid (0x47 :: List.replicate 21 0) []).2.1
      (by decide) (by decide)
    rw [h]
    decide
  · have h := (decode_request_version_and_uuid (0 :: List.replicate 21 0)
      [List.replicate 16 1]).2.2 (by decide) (by decide) (by decide)
    rw [h]
    decide

/-! ## VLESS connection handler, decode-failure path

Model of `src/handler.rs`, `serve_vless`: after a decode failure the
handler inspects the (partially consumed) read buffer with
`windows(4).any(..)` for the tokens "GET ", "POST", "HEAD"; on a hit it
writes the literal 204 reply and returns Ok, otherwise it propagates the
decode error. -/

/-- The ASCII bytes of "HTTP/1.1 204 No Content\r\n\r\n". -/
def http204Reply : List Nat :=
  [0x48, 0x54, 0x54, 0x50, 0x2F, 0x31, 0x2E, 0x31, 0x20, 0x32, 0x30, 0x34,
   0x20, 0x4E, 0x6F, 0x20, 0x43, 0x6F, 0x6E, 0x74, 0x65, 0x6E, 0x74,
   0x0D, 0x0A, 0x0D, 0x0A]

/-- `slice::windows(4).any(p)`: does any 4-byte window satisfy `p`? -/
def anyWindow4 (p : List Nat → Bool) : List Nat → Bool
  | [] => false
  | b :: rest =>
    if (b :: rest).length < 4 then false
    else p ((b :: rest).take 4) || anyWindow4 p rest

/-- The ASCII bytes of the token "GET ". -/
def getSpaceTok : List Nat := [0x47, 0x45, 0x54, 0x20]

/-- The ASCII bytes of the token "POST". -/
def postTok : List Nat := [0x50, 0x4F, 0x53, 0x54]

/-- The ASCII bytes of the token "HEAD". -/
def headTok : List Nat := [0x48, 0x45, 0x41, 0x44]

/-- The handler's HTTP-probe test over the buffer that remains after the
failed decode call. -/
def is_http_probe (buf : List Nat) : Bool :=
  anyWindow4 (fun w => w == getSpaceTok || w == postTok) buf ||
    anyWindow4 (fun w => w == headTok) buf

/-- Outcome of `serve_vless` up to the decode step. -/
inductive ServeOutcome where
  | proceed (r : VlessRequest) (remaining : List Nat)
  | probeReply (reply : List Nat)
  | decodeError (e : VlessError)
  deriving DecidableEq, Repr

/-- The decode-and-dispatch prefix of `serve_vless`: decode the request
from the buffer; on failure, run the probe test on the buffer as the
decoder left it. -/
def serve_vless_decision (buf : List Nat) (allowed : List (List Nat)) : ServeOutcome :=
  match decode_request buf allowed with
  | (.ok r, rem) => .proceed r rem
  | (.error e, rem) =>
    if is_http_probe rem then .probeReply http204Reply else .decodeError e

/-- The ASCII bytes of "GET /anything HTTP/1.1\r\n\r\n" (spec §8,
boundary scenario 5). -/
def probeRequestBytes : List Nat :=
  [0x47, 0x45, 0x54, 0x20, 0x2F, 0x61, 0x6E, 0x79, 0x74, 0x68, 0x69, 0x6E,
   0x67, 0x20, 0x48, 0x54, 0x54, 0x50, 0x2F, 0x31, 0x2E, 0x31, 0x0D, 0x0A,
   0x0D, 0x0A]

/-- C9: on the spec's literal HTTP-probe input "GET /anything
HTTP/1.1\r\n\r\n" the claim (and spec scenario 5) requires the 204 reply;
the code consumes the version byte before the probe check, so the check
runs on "ET /anything HTTP/1.1\r\n\r\n", finds none of the tokens, and the
handler returns the decode error with no reply. The probe test does fire on
the full buffer (and fires on buffers that merely contain a token
anywhere, e.g. "xxxxxxxxxxxxxxxxxxxxxxPOST", which does not begin with a
token), confirming that both the begins-with reading and the reply on this
input fail on the code. -/
theorem serve_vless_probe_divergence :
    probeRequestBytes.take 4 = getSpaceTok ∧
    is_http_probe probeRequestBytes = true ∧
    is_http_probe probeRequestBytes.tail = false ∧
    serve_vless_decision probeRequestBytes [] =
      .decodeError (.unsupportedVersion 0x47) ∧
    serve_vless_decision (List.replicate 22 0x78 ++ postTok) [] =
      .probeReply http204Reply := by
  refine ⟨by decide, by decide, by decide, by decide, by decide⟩

/-! ## XHTTP HTTP/2 request routing

Model of `src/transport/xhttp/h2.rs`, `H2Handler::handle_request`: the
path admission is `path.starts_with(&config.path)`; non-matching paths get
404, matching paths are served (GET download channel, POST upload or
standalone), other methods get 405. Paths and methods are byte strings. -/

/-- Routing outcome of `handle_request`. -/
inductive H2Outcome where
  | notFound
  | servedGet
  | servedPost
  | methodNotAllowed
  deriving DecidableEq, Repr

/-- The ASCII bytes of "GET". -/
def getMethod : List Nat := [0x47, 0x45, 0x54]

/-- The ASCII bytes of "POST". -/
def postMethod : List Nat := [0x50, 0x4F, 0x53, 0x54]

/-- `H2Handler::handle_request` up to the routing decision. -/
def handle_request_route (config_path path method : List Nat) : H2Outcome :=
  if ¬ config_path.isPrefixOf path then .notFound
  else if method == getMethod then .servedGet
  else if method == postMethod then .servedPost
  else .methodNotAllowed

/-- The ASCII bytes of "/proxy". -/
def proxyPath : List Nat := [0x2F, 0x70, 0x72, 0x6F, 0x78, 0x79]

/-- C10 counterexample: with configured path "/proxy", a GET for
"/proxyX" is served although its path is neither exactly "/proxy" nor of
the form "/proxy/<token>" (it does not even extend the configured path
with a "/"), where the claim requires a 404. -/
theorem xhttp_non_token_path_served :
    handle_request_route proxyPath (proxyPath ++ [0x58]) getMethod = .servedGet ∧
    proxyPath ++ [0x58] ≠ proxyPath ∧
    (proxyPath ++ [0x2F]).isPrefixOf (proxyPath ++ [0x58]) = false := by
  refine ⟨by decide, by decide, by decide⟩

/-- C10 amended: the path admission is plain byte-prefix matching — a
request is rejected with 404 exactly when the configured path is not a
prefix of the request path, and every request whose path extends the
configured path (with or without a "/" separator) is dispatched by
method. -/
theorem handle_request_route_starts_with (config_path path method : List Nat) :
    (handle_request_route config_path path method = .notFound ↔
      config_path.isPrefixOf path = false) ∧
    (config_path.isPrefixOf path = true →
      handle_request_route config_path path method =
        (if method == getMethod then .servedGet
         else if method == postMethod then .servedPost
         else .methodNotAllowed)) := by
  constructor
  · constructor
    · intro h
      by_contra hb
      rw [Bool.not_eq_false] at hb
      unfold handle_request_route at h
      rw [if_neg (by rw [hb]; simp)] at h
      split at h
      · exact absurd h (by simp)
      · split at h
        · exact absurd h (by simp)
        · exact absurd h (by simp)
    · intro hb
      unfold handle_request_route
      rw [if_pos (by rw [hb]; simp)]
  · intro hb
    unfold handle_request_route
    rw [if_neg (by rw [hb]; simp)]

/-- Witness for C10's amended theorem: a prefix-extending GET is served. -/
theorem handle_request_route_starts_with_witness :
    handle_request_route proxyPath (proxyPath ++ [0x58, 0x59]) getMethod = .servedGet :=
  (handle_request_route_starts_with proxyPath (proxyPath ++ [0x58, 0x59]) getMethod).2
    (by decide)

/-! ## Reality fallback transparency

Model of `src/transport/reality/server_rustls.rs`, `fallback` (and the
capture loop in `accept`): the sequence of writes to the camouflage origin
is the captured prefix buffer (written by `write_all` when non-empty)
followed by each chunk the copy loop reads from the client; the writes to
the client are exactly the chunks read from the origin. -/

/-- The write events `fallback` issues toward the origin, as byte chunks:
`write_all` of the captured bytes when non-empty, then the client-to-dest
copy loop. -/
def fallback_origin_writes (captured : List Nat) (client_chunks : List (List Nat)) :
    List (List Nat) :=
  (if captured.isEmpty then [] else [captured]) ++ client_chunks

/-- The write events `fallback` issues toward the client: only the
dest-to-client copy loop's chunks. -/
def fallback_client_writes (dest_chunks : List (List Nat)) : List (List Nat) :=
  dest_chunks

/-- C4: the byte stream delivered to the camouflage origin is exactly the
captured buffer followed by the client's subsequent bytes — byte-for-byte
what was received from the client, with no proxy-originated insertion —
and the bytes written to the client are exactly the origin's bytes. -/
theorem fallback_transparency (captured : List Nat)
    (client_chunks dest_chunks : List (List Nat)) :
    listJoin (fallback_origin_writes captured client_chunks) =
      captured ++ listJoin client_chunks ∧
    listJoin (fallback_client_writes dest_chunks) = listJoin dest_chunks := by
  constructor
  · cases captured <;> simp [fallback_origin_writes, List.isEmpty]
  · rfl

end XrayLite
